import Mathlib

/-!
Verification of the chief-of-staff briefing/calendar request handlers
(`api/briefing.js`, two revisions, and `api/calendar.js`) against their
natural-language specification.

JavaScript platform collaborators are embedded as follows:
* `JSON.parse` is modelled by `Json.parse`, a fuel-bounded recursive-descent
  parser for the JSON grammar.  Numbers keep their source lexeme (the
  handlers never compute with parsed numbers), and objects keep their field
  list in order.
* the regex match `newsText.match(/\[[\s\S]*\]/)` is modelled by
  `jsonArrayMatch`: the span from the first left bracket to the last right
  bracket, provided the latter follows the former, which is exactly what the
  greedy pattern yields.
* `parseFloat(s).toFixed(2)` is modelled by exact decimal arithmetic
  (`parseFloatDec`, `toFixed2n`, `fix2`): the rounding that ECMA `toFixed`
  specifies on the IEEE double, transported to the exact value of the
  decimal literal.
* `Math.round` is `jsRound`, floor of x + 1/2 (round half toward plus
  infinity), as ECMA specifies.
* upstream HTTP providers, the system clock and `Date.toISOString` are
  parameters of the handler models; the handlers record which provider calls
  they make.
-/

/-- JSON values as produced by the modelled `JSON.parse`.  Numbers keep the
raw lexeme; the handlers under verification never do arithmetic on parsed
numbers, they only pass values through. -/
inductive Json where
  | null : Json
  | bool (b : Bool) : Json
  | num (lexeme : String) : Json
  | str (s : String) : Json
  | arr (elems : List Json) : Json
  | obj (fields : List (String × Json)) : Json
deriving Repr

/-- JSON insignificant whitespace. -/
def isJsonWs (c : Char) : Bool :=
  c = ' ' || c = '\t' || c = '\n' || c = '\r'

/-- Drop leading JSON whitespace. -/
def skipWs : List Char → List Char
  | [] => []
  | c :: cs => if isJsonWs c then skipWs cs else c :: cs

/-- Value of a hexadecimal digit. -/
def hexVal (c : Char) : Option Nat :=
  if '0' ≤ c ∧ c ≤ '9' then some (c.toNat - '0'.toNat)
  else if 'a' ≤ c ∧ c ≤ 'f' then some (c.toNat - 'a'.toNat + 10)
  else if 'A' ≤ c ∧ c ≤ 'F' then some (c.toNat - 'A'.toNat + 10)
  else none

/-- Parse the body of a JSON string after the opening quote, returning the
decoded characters and the input after the closing quote.  Control
characters below U+0020 are rejected, escapes are decoded, as in
`JSON.parse`.  (A `\uXXXX` escape in the surrogate range decodes to the
replacement of `Char.ofNat`; none of the strings in this development use
such escapes.) -/
def parseStrBody : List Char → Option (List Char × List Char)
  | [] => none
  | '"' :: rest => some ([], rest)
  | '\\' :: 'u' :: a :: b :: c :: d :: rest => do
    let va ← hexVal a
    let vb ← hexVal b
    let vc ← hexVal c
    let vd ← hexVal d
    let (tail, rem) ← parseStrBody rest
    some (Char.ofNat (((va * 16 + vb) * 16 + vc) * 16 + vd) :: tail, rem)
  | '\\' :: e :: rest => do
    let decoded ←
      match e with
      | '"' => some '"'
      | '\\' => some '\\'
      | '/' => some '/'
      | 'b' => some (Char.ofNat 8)
      | 'f' => some (Char.ofNat 12)
      | 'n' => some '\n'
      | 'r' => some '\r'
      | 't' => some '\t'
      | _ => none
    let (tail, rem) ← parseStrBody rest
    some (decoded :: tail, rem)
  | c :: rest => do
    if c.toNat < 32 then none
    else
      let (tail, rem) ← parseStrBody rest
      some (c :: tail, rem)

/-- Split off a leading run of decimal digits. -/
def takeDigits (cs : List Char) : List Char × List Char :=
  (cs.takeWhile Char.isDigit, cs.dropWhile Char.isDigit)

/-- Parse a JSON number token, returning its lexeme and the rest of the
input.  Grammar: `-? (0 | [1-9][0-9]*) (. [0-9]+)? ([eE][+-]?[0-9]+)?`. -/
def parseNumToken (cs : List Char) : Option (List Char × List Char) := do
  let (sign, cs1) :=
    match cs with
    | '-' :: t => (['-'], t)
    | t => ([], t)
  let (intPart, cs2) ←
    match cs1 with
    | '0' :: t => some (['0'], t)
    | c :: _ =>
      if c.isDigit then
        let (ds, t) := takeDigits cs1
        some (ds, t)
      else none
    | [] => none
  let (fracPart, cs3) ←
    match cs2 with
    | '.' :: t =>
      let (ds, t2) := takeDigits t
      if ds = [] then none else some ('.' :: ds, t2)
    | t => some ([], t)
  let (expPart, cs4) ←
    match cs3 with
    | e :: t =>
      if e = 'e' ∨ e = 'E' then
        let (esign, t1) :=
          match t with
          | '+' :: t2 => (['+'], t2)
          | '-' :: t2 => (['-'], t2)
          | t2 => (([] : List Char), t2)
        let (ds, t2) := takeDigits t1
        if ds = [] then none else some (e :: (esign ++ ds), t2)
      else some ([], cs3)
    | [] => some ([], cs3)
  some (sign ++ intPart ++ fracPart ++ expPart, cs4)

mutual

/-- Fuel-bounded JSON value parser: leading whitespace is skipped, then one
value is consumed; returns the value and the remaining input. -/
def parseVal : Nat → List Char → Option (Json × List Char)
  | 0, _ => none
  | fuel + 1, cs =>
    match skipWs cs with
    | 'n' :: 'u' :: 'l' :: 'l' :: rest => some (.null, rest)
    | 't' :: 'r' :: 'u' :: 'e' :: rest => some (.bool true, rest)
    | 'f' :: 'a' :: 'l' :: 's' :: 'e' :: rest => some (.bool false, rest)
    | '"' :: rest => do
      let (body, rem) ← parseStrBody rest
      some (.str ⟨body⟩, rem)
    | '[' :: rest =>
      (match skipWs rest with
       | ']' :: rem => some (.arr [], rem)
       | rest2 => do
         let (elems, rem) ← parseArrItems fuel rest2
         some (.arr elems, rem))
    | '{' :: rest =>
      (match skipWs rest with
       | '}' :: rem => some (.obj [], rem)
       | rest2 => do
         let (fields, rem) ← parseObjItems fuel rest2
         some (.obj fields, rem))
    | cs2 => do
      let (lexeme, rem) ← parseNumToken cs2
      some (.num ⟨lexeme⟩, rem)

/-- Parse the elements of a non-empty JSON array (input positioned at the
first element), consuming the closing bracket. -/
def parseArrItems : Nat → List Char → Option (List Json × List Char)
  | 0, _ => none
  | fuel + 1, cs => do
    let (v, rest) ← parseVal fuel cs
    match skipWs rest with
    | ',' :: rest2 => do
      let (vs, rem) ← parseArrItems fuel rest2
      some (v :: vs, rem)
    | ']' :: rem => some ([v], rem)
    | _ => none

/-- Parse the members of a non-empty JSON object (input positioned at the
first key), consuming the closing brace. -/
def parseObjItems : Nat → List Char → Option (List (String × Json) × List Char)
  | 0, _ => none
  | fuel + 1, cs => do
    match skipWs cs with
    | '"' :: rest => do
      let (key, rest1) ← parseStrBody rest
      match skipWs rest1 with
      | ':' :: rest2 => do
        let (v, rest3) ← parseVal fuel rest2
        match skipWs rest3 with
        | ',' :: rest4 => do
          let (fs, rem) ← parseObjItems fuel rest4
          some ((⟨key⟩, v) :: fs, rem)
        | '}' :: rem => some ([(⟨key⟩, v)], rem)
        | _ => none
      | _ => none
    | _ => none

end

/-- The modelled `JSON.parse`: parse one JSON value, requiring the whole
input (up to trailing whitespace) to be consumed.  The fuel bound
2·length + 8 exceeds the parser's recursion depth, which grows by at most
two per consumed character. -/
def Json.parse (s : String) : Option Json :=
  match parseVal (2 * s.length + 8) s.data with
  | some (v, rest) => if skipWs rest = [] then some v else none
  | none => none

example : Json.parse "[1,2,3,4,5]" =
    some (.arr [.num "1", .num "2", .num "3", .num "4", .num "5"]) := by rfl
example : Json.parse " \x7b \"a\" : null \x7d " = some (.obj [("a", .null)]) := by rfl
example : Json.parse "[9]. [1,2,3,4,5]" = none := by rfl
example : Json.parse "[\"x]\",true]" = some (.arr [.str "x]", .bool true]) := by rfl

/-- The suffix of the input starting at its first left bracket, `none` if
there is no left bracket. -/
def fromFirstLB : List Char → Option (List Char)
  | [] => none
  | c :: cs => if c = '[' then some (c :: cs) else fromFirstLB cs

/-- The prefix of the input up to and including its last right bracket,
`none` if there is no right bracket. -/
def upToLastRB : List Char → Option (List Char)
  | [] => none
  | c :: cs =>
    match upToLastRB cs with
    | some p => some (c :: p)
    | none => if c = ']' then some [c] else none

/-- Model of `newsText.match(/\[[\s\S]*\]/)`: the greedy pattern matches
from the first left bracket that has a right bracket after it, through the
last right bracket of the string; if the first left bracket has no right
bracket after it then no later one does either, so the match is the span
from the first left bracket to the last right bracket whenever that span is
well formed. -/
def jsonArrayMatch (s : String) : Option String :=
  match fromFirstLB s.data with
  | some (c :: rest) => (upToLastRB rest).map (fun p => ⟨c :: p⟩)
  | _ => none

example : jsonArrayMatch "prose [1,2] tail" = some "[1,2]" := by rfl
example : jsonArrayMatch "See [9]. [1,2,3,4,5]" = some "[9]. [1,2,3,4,5]" := by rfl
example : jsonArrayMatch "no brackets at all" = none := by rfl
example : jsonArrayMatch "a] b[ c" = none := by rfl

/-! ## News search adapter (`api/briefing.js`, action `getNews`) -/

/-- One block of the model response `data.content`. -/
structure ContentBlock where
  type : String
  text : String
deriving Repr, DecidableEq

/-- The upstream LLM HTTP exchange as the handler sees it: `response.ok`,
`data.error?.message`, and `data.content` (absent field modelled as
`none`). -/
structure NewsUpstream where
  ok : Bool
  errorMessage : Option String
  content : Option (List ContentBlock)
deriving Repr, DecidableEq

/-- `newsText`: the text blocks of `data.content` joined with newlines, the
empty string when `data.content` is absent. -/
def newsTextOf (u : NewsUpstream) : String :=
  match u.content with
  | some blocks =>
    String.intercalate "\n" ((blocks.filter (fun b => b.type == "text")).map (·.text))
  | none => ""

/-- Body of a briefing `getNews` response: `{success: true, stories}` or
`{error, details?}`. -/
inductive NewsBody where
  | stories (s : Json) : NewsBody
  | error (msg : String) (details : Option String) : NewsBody
deriving Repr

/-- An HTTP response of the news endpoint. -/
structure NewsResp where
  status : Nat
  body : NewsBody
deriving Repr

/-- JavaScript falsiness of an optional string (`undefined` or `""`). -/
def jsFalsy : Option String → Bool
  | none => true
  | some s => s = ""

/-- The placeholder story of the first revision of `api/briefing.js`
(lines 185 to 191): `Array(5).fill(null).map` builds five copies of this
object. -/
def placeholderStory : Json :=
  .obj [("title", .str "News Unavailable"),
        ("summary", .str "Unable to fetch news at this time. Please try refreshing in a few moments."),
        ("url", .str "#"),
        ("source", .str "System"),
        ("imageUrl", .null)]

/-- Details string of the caught `JSON.parse` exception.  The real message
text is engine specific; no claim depends on it. -/
def jsonParseErrMsg : String := "Unexpected token in JSON"

/-- `getNews` of the first revision of `api/briefing.js` (lines 85 to 205),
from the api key of the request body and the upstream exchange to the
response, paired with the number of upstream LLM calls made.  The search
prompt construction is omitted: it only shapes the upstream request, which
is a parameter here.  The `catch` of the handler turns any thrown error
into a 500 `Briefing operation failed` response. -/
def getNewsV1 (apiKey : Option String) (u : NewsUpstream) : NewsResp × Nat :=
  if jsFalsy apiKey then
    (⟨400, .error "Anthropic API key required" none⟩, 0)
  else if !u.ok then
    (⟨500, .error "Briefing operation failed"
        (some (match u.errorMessage with | some m => m | none => "News API failed"))⟩, 1)
  else
    match jsonArrayMatch (newsTextOf u) with
    | none => (⟨200, .stories (.arr (List.replicate 5 placeholderStory))⟩, 1)
    | some matched =>
      match Json.parse matched with
      | none => (⟨500, .error "Briefing operation failed" (some jsonParseErrMsg)⟩, 1)
      | some v => (⟨200, .stories v⟩, 1)

/-- `getNews` of the second revision of `api/briefing.js` (lines 303 to
385): identical to the first revision except that a failed array match
throws `Failed to parse news data`, which the `catch` turns into a 500
response. -/
def getNewsV2 (apiKey : Option String) (u : NewsUpstream) : NewsResp × Nat :=
  if jsFalsy apiKey then
    (⟨400, .error "Anthropic API key required" none⟩, 0)
  else if !u.ok then
    (⟨500, .error "Briefing operation failed"
        (some (match u.errorMessage with | some m => m | none => "News API failed"))⟩, 1)
  else
    match jsonArrayMatch (newsTextOf u) with
    | none => (⟨500, .error "Briefing operation failed" (some "Failed to parse news data")⟩, 1)
    | some matched =>
      match Json.parse matched with
      | none => (⟨500, .error "Briefing operation failed" (some jsonParseErrMsg)⟩, 1)
      | some v => (⟨200, .stories v⟩, 1)

/-! ## Stock quote adapter (`api/briefing.js`, action `getStocks`) -/

/-- The raw fields the handler reads from a `Global Quote` object. -/
structure QuoteRaw where
  price : String
  change : String
  changePercent : String
deriving Repr, DecidableEq

/-- The two quote provider exchanges: `spData['Global Quote']` and
`nasdaqData['Global Quote']`, `none` when the field is absent. -/
structure StocksUpstream where
  sp : Option QuoteRaw
  nasdaq : Option QuoteRaw
deriving Repr, DecidableEq

/-- A formatted index quote of the response. -/
structure QuoteOut where
  price : String
  change : String
  changePercent : String
deriving Repr, DecidableEq

/-- Body of a briefing `getStocks` response. -/
inductive StocksBody where
  | quotes (sp500 nasdaq : QuoteOut) : StocksBody
  | error (msg : String) (details : String) : StocksBody
deriving Repr, DecidableEq

/-- An HTTP response of the stocks action. -/
structure StocksResp where
  status : Nat
  body : StocksBody
deriving Repr, DecidableEq

/-- Numeric value of a run of decimal digits. -/
def digitsVal (ds : List Char) : ℕ :=
  ds.foldl (fun acc c => acc * 10 + (c.toNat - '0'.toNat)) 0

/-- Model of JavaScript `parseFloat` on the decimal grammar the quote
provider emits: optional leading whitespace, optional sign, digits with an
optional fraction part; `none` stands for `NaN`.  (The exponent forms of
`parseFloat` are outside every input considered here.)  The result is the
sign together with the integer and fraction digits: the parsed value is
`± (intVal + fracVal / 10 ^ fracLen)`. -/
def parseFloatDec (s : String) : Option (Bool × ℕ × ℕ × ℕ) :=
  let cs := s.data.dropWhile isJsonWs
  let (neg, cs1) : (Bool × List Char) :=
    match cs with
    | '-' :: t => (true, t)
    | '+' :: t => (false, t)
    | t => (false, t)
  let (intDs, cs2) := takeDigits cs1
  let (fracDs, _) :=
    match cs2 with
    | '.' :: t => takeDigits t
    | _ => ([], [])
  if intDs = [] ∧ fracDs = [] then none
  else some (neg, digitsVal intDs, digitsVal fracDs, fracDs.length)

/-- The rational value of a `parseFloatDec` result. -/
def decValue : Bool × ℕ × ℕ × ℕ → ℚ :=
  fun (neg, intVal, fracVal, fracLen) =>
    (if neg then -1 else 1) * ((intVal : ℚ) + (fracVal : ℚ) / (10 : ℚ) ^ fracLen)

/-- Two explicit digit characters of a natural number below 100. -/
def pad2 (m : ℕ) : String :=
  ⟨[Char.ofNat ('0'.toNat + m / 10 % 10), Char.ofNat ('0'.toNat + m % 10)]⟩

/-- ECMA `toFixed(2)` on the absolute decimal value `units / 10 ^ fracLen`
with `units = intVal * 10 ^ fracLen + fracVal`: the integer n closest to
100 times the value, ties to the larger n.  The division is exact integer
arithmetic: n = ⌊(200·units + 10^k) / (2·10^k)⌋. -/
def toFixed2n (units fracLen : ℕ) : ℕ :=
  (200 * units + 10 ^ fracLen) / (2 * 10 ^ fracLen)

/-- `parseFloat(s).toFixed(2)` (`"NaN"` when `parseFloat` yields NaN):
ECMA `toFixed` prints a minus sign for negative values and rounds the
absolute value to the closest hundredth, ties away from zero. -/
def fix2 (s : String) : String :=
  match parseFloatDec s with
  | none => "NaN"
  | some (neg, intVal, fracVal, fracLen) =>
    let units : ℕ := intVal * 10 ^ fracLen + fracVal
    let n : ℕ := toFixed2n units fracLen
    let sign := if neg ∧ units ≠ 0 then "-" else ""
    sign ++ toString (n / 100) ++ "." ++ pad2 (n % 100)

/-- JavaScript `s.replace('%', '')`: remove the first occurrence of the
percent sign, if any. -/
def removeFirstPct : List Char → List Char
  | [] => []
  | c :: cs => if c = '%' then cs else c :: removeFirstPct cs

/-- String-level wrapper of `removeFirstPct`. -/
def stripPct (s : String) : String := ⟨removeFirstPct s.data⟩

/-- The `getStocks` branch of `api/briefing.js` (lines 48 to 83): both
quotes are fetched, a missing `Global Quote` on either throws (caught as a
500), otherwise the formatted quotes are returned. -/
def getStocks (u : StocksUpstream) : StocksResp :=
  match u.sp, u.nasdaq with
  | some spq, some nq =>
    ⟨200, .quotes
      ⟨fix2 spq.price, fix2 spq.change, stripPct spq.changePercent⟩
      ⟨fix2 nq.price, fix2 nq.change, stripPct nq.changePercent⟩⟩
  | _, _ => ⟨500, .error "Briefing operation failed" "Stock API failed or rate limit reached"⟩

example : fix2 "123.456" = "123.46" := by rfl
example : fix2 "1.2" = "1.20" := by rfl
example : stripPct "0.53%" = "0.53" := by rfl

/-! ## Weather adapter (`api/briefing.js`, action `getWeather`) -/

/-- ECMA `Math.round`: floor of x + 1/2 (round half toward plus infinity),
computed as exact integer division on the numerator and denominator. -/
def jsRound (q : ℚ) : ℤ := (2 * q.num + q.den) / (2 * q.den)

/-- The weather provider exchange as the handler reads it: `response.ok`
and the fields of the parsed body that the handler extracts
(`main.temp`, `main.feels_like`, `main.humidity`, `weather[0].description`,
`weather[0].icon`, `wind.speed`).  Provider numbers are modelled as
rationals. -/
structure WeatherUpstream where
  ok : Bool
  temp : ℚ
  feels_like : ℚ
  humidity : Int
  description : String
  icon : String
  wind_speed : ℚ
deriving DecidableEq

/-- The weather payload of a successful response. -/
structure WeatherOut where
  temp : Int
  feels_like : Int
  description : String
  icon : String
  humidity : Int
  wind_speed : Int
deriving Repr, DecidableEq

/-- Body of a briefing `getWeather` response. -/
inductive WeatherBody where
  | weather (w : WeatherOut) : WeatherBody
  | error (msg : String) (details : String) : WeatherBody
deriving Repr, DecidableEq

/-- An HTTP response of the weather action. -/
structure WeatherResp where
  status : Nat
  body : WeatherBody
deriving Repr, DecidableEq

/-- The `getWeather` branch of `api/briefing.js` (lines 24 to 46): a
non-success provider status throws `Weather API failed` (caught as a 500);
otherwise temperature, feels-like and wind speed are rounded with
`Math.round` and humidity, description and icon are copied. -/
def getWeather (u : WeatherUpstream) : WeatherResp :=
  if !u.ok then
    ⟨500, .error "Briefing operation failed" "Weather API failed"⟩
  else
    ⟨200, .weather
      { temp := jsRound u.temp
        feels_like := jsRound u.feels_like
        description := u.description
        icon := u.icon
        humidity := u.humidity
        wind_speed := jsRound u.wind_speed }⟩

/-! ## Calendar endpoint (`api/calendar.js`) -/

/-- The `params` object of a calendar request body.  A `none` field is an
absent (`undefined`) property. -/
structure CalParams where
  timeMin : Option String
  timeMax : Option String
  maxResults : Option Nat
  eventId : Option String
deriving Repr, DecidableEq

/-- A calendar request body.  `params := none` is a body with no `params`
property at all (or `params: null`): `listEvents` and `findFreeTime`
replace it by `{}` via `params || {}`, while `getEvent` destructures it
directly and throws. -/
structure CalBody where
  action : String
  params : Option CalParams
deriving Repr, DecidableEq

/-- The query the handler passes to `calendar.events.list`. -/
structure ListQuery where
  calendarId : String
  timeMin : String
  timeMax : Option String
  maxResults : Nat
  singleEvents : Bool
  orderBy : String
deriving Repr, DecidableEq

/-- The query the handler passes to `calendar.freebusy.query`. -/
structure FreeBusyQuery where
  timeMin : String
  timeMax : String
  items : List String
deriving Repr, DecidableEq

/-- One outbound call to the Google Calendar provider. -/
inductive CalCall where
  | list (q : ListQuery) : CalCall
  | get (eventId : String) : CalCall
  | freebusy (q : FreeBusyQuery) : CalCall
deriving Repr

/-- The calendar provider as the handler consumes it: each operation either
returns the relevant part of `response.data` or throws with a message.
`listEvents` yields `response.data.items`, which may be absent (`none`,
replaced by `[]` in the handler). -/
structure CalProvider where
  listEvents : ListQuery → Except String (Option Json)
  getEvent : String → Except String Json
  freebusy : FreeBusyQuery → Except String Json

/-- Body of a calendar response. -/
inductive CalRespBody where
  | events (items : Json) : CalRespBody
  | event (data : Json) : CalRespBody
  | freebusy (data : Json) : CalRespBody
  | error (msg : String) (details : Option String) : CalRespBody
deriving Repr

/-- An HTTP response of the calendar endpoint. -/
structure CalResp where
  status : Nat
  body : CalRespBody
deriving Repr

/-- JavaScript truthiness-based defaulting `v || d` for strings: an absent
value and the empty string both fall back to the default. -/
def jsOrDefault (v : Option String) (d : String) : String :=
  match v with
  | some s => if s = "" then d else s
  | none => d

/-- Details string of the caught destructuring `TypeError` thrown by
`const { eventId } = params` when `params` is absent.  The real message
text is engine specific; no claim depends on it. -/
def destructureErrMsg : String := "Cannot destructure property eventId of params as it is undefined"

/-- The `POST` path of the `api/calendar.js` handler (lines 22 to 102),
from the environment credentials string, the current time, the
`Date.toISOString` conversion, the provider and the request body to the
response and the list of provider calls made.  `JSON.parse` of the
credentials runs first; its failure, the destructuring failure of
`getEvent`, and provider failures are all caught by the `catch` block as
500 `Calendar operation failed` responses.  The source reads the clock
twice in `findFreeTime` (`new Date()` and `Date.now()`), milliseconds
apart; the model uses one instant for both. -/
def calendarHandler (envCreds : Option String) (now : Int) (toISO : Int → String)
    (provider : CalProvider) (body : CalBody) : CalResp × List CalCall :=
  match Json.parse (match envCreds with | some s => s | none => "undefined") with
  | none => (⟨500, .error "Calendar operation failed" (some "Unexpected token in JSON")⟩, [])
  | some _ =>
    match body.action with
    | "listEvents" =>
      let ps := body.params.getD ⟨none, none, none, none⟩
      let q : ListQuery :=
        { calendarId := "primary"
          timeMin := jsOrDefault ps.timeMin (toISO now)
          timeMax := ps.timeMax
          maxResults := ps.maxResults.getD 50
          singleEvents := true
          orderBy := "startTime" }
      match provider.listEvents q with
      | .ok items => (⟨200, .events (items.getD (.arr []))⟩, [.list q])
      | .error m => (⟨500, .error "Calendar operation failed" (some m)⟩, [.list q])
    | "getEvent" =>
      match body.params with
      | none => (⟨500, .error "Calendar operation failed" (some destructureErrMsg)⟩, [])
      | some ps =>
        if jsFalsy ps.eventId then
          (⟨400, .error "eventId required" none⟩, [])
        else
          let eid := ps.eventId.getD ""
          match provider.getEvent eid with
          | .ok d => (⟨200, .event d⟩, [.get eid])
          | .error m => (⟨500, .error "Calendar operation failed" (some m)⟩, [.get eid])
    | "findFreeTime" =>
      let ps := body.params.getD ⟨none, none, none, none⟩
      let q : FreeBusyQuery :=
        { timeMin := jsOrDefault ps.timeMin (toISO now)
          timeMax := jsOrDefault ps.timeMax (toISO (now + 7 * 24 * 60 * 60 * 1000))
          items := ["primary"] }
      match provider.freebusy q with
      | .ok fb => (⟨200, .freebusy fb⟩, [.freebusy q])
      | .error m => (⟨500, .error "Calendar operation failed" (some m)⟩, [.freebusy q])
    | _ => (⟨400, .error "Invalid action" none⟩, [])

/-! ## Aggregation cache

The TTL cache that the specification describes (section 4.1) is not part
of the two handler files under `src/`; neither revision of
`api/briefing.js` consults any cache before its upstream calls.  The cache
therefore lives in repository code outside `src/` (the front end calling
these endpoints), and is modelled here from the specification. -/

/-- The briefing categories of the cache. -/
inductive Category where
  | weather : Category
  | stocks : Category
  | globalNews : Category
  | legalNews : Category
deriving Repr, DecidableEq

/-- Modelled from the spec: a cache entry,
`{ data: CanonicalPayload | null, timestamp: UnixMillis }`; `data = null`
means never populated. -/
structure CacheEntry (α : Type) where
  data : Option α
  timestamp : Int
deriving Repr, DecidableEq

/-- Modelled from the spec: the cache TTL, one hour, in milliseconds. -/
def cacheTTL : Int := 3600000

/-- Modelled from the spec: `isValid(entry)` is true iff
`entry.data != null` and `now - entry.timestamp < TTL`. -/
def isValid (now : Int) (e : CacheEntry α) : Bool :=
  e.data.isSome && decide (now - e.timestamp < cacheTTL)

/-- Modelled from the spec: the envelope a cached handler returns — the
payload, the `cached` flag, and the number of upstream fetch sequences it
performed — together with the cache store after the request. -/
structure CachedResult (α : Type) where
  payload : α
  cached : Bool
  upstreamCalls : Nat
  store : Category → CacheEntry α

/-- Modelled from the spec: the per-category cached request path — consult
the entry for the category; when it is valid return it verbatim with
`cached: true` and no upstream call; otherwise run exactly one upstream
fetch sequence, return its payload with `cached: false`, and store it as
the new entry for the category (other categories untouched). -/
def cachedDispatch (now : Int) (store : Category → CacheEntry α)
    (cat : Category) (fetch : Unit → α) : CachedResult α :=
  let entry := store cat
  match entry.data with
  | some d =>
    if now - entry.timestamp < cacheTTL then
      { payload := d, cached := true, upstreamCalls := 0, store := store }
    else
      let fresh := fetch ()
      { payload := fresh, cached := false, upstreamCalls := 1
        store := fun c => if c = cat then ⟨some fresh, now⟩ else store c }
  | none =>
    let fresh := fetch ()
    { payload := fresh, cached := false, upstreamCalls := 1
      store := fun c => if c = cat then ⟨some fresh, now⟩ else store c }

/-! ## Shared lemmas -/

theorem jsRound_eq_floor (q : ℚ) : jsRound q = ⌊q + 1 / 2⌋ := by
  have hden : ((q.den : ℚ)) ≠ 0 := by exact_mod_cast q.den_pos.ne'
  have hq : (q.num : ℚ) / (q.den : ℚ) = q := Rat.num_div_den q
  have hnum : (q.num : ℚ) = q * q.den := (div_eq_iff hden).mp hq
  have h2 : ((2 * q.den : ℕ) : ℚ) ≠ 0 := by
    exact_mod_cast (Nat.mul_pos two_pos q.den_pos).ne'
  have hval : ((2 * q.num + (q.den : ℤ) : ℤ) : ℚ) / ((2 * q.den : ℕ) : ℚ) = q + 1 / 2 := by
    rw [div_eq_iff h2]
    push_cast
    rw [hnum]
    ring
  rw [jsRound, ← hval, Rat.floor_intCast_div_natCast]
  push_cast
  rfl

theorem jsRound_nearest (q : ℚ) : |(jsRound q : ℚ) - q| ≤ 1 / 2 := by
  rw [jsRound_eq_floor]
  have h1 : ((⌊q + 1 / 2⌋ : ℚ)) ≤ q + 1 / 2 := Int.floor_le _
  have h2 : q + 1 / 2 < (⌊q + 1 / 2⌋ : ℚ) + 1 := Int.lt_floor_add_one _
  rw [abs_le]
  constructor <;> linarith

theorem fromFirstLB_append (prose rest : List Char) (hp : '[' ∉ prose) :
    fromFirstLB (prose ++ ('[' :: rest)) = some ('[' :: rest) := by
  induction prose with
  | nil => simp [fromFirstLB]
  | cons c cs ih =>
    have hc : c ≠ '[' := fun h => hp (h ▸ List.mem_cons_self c cs)
    have hcs : '[' ∉ cs := fun h => hp (List.mem_cons_of_mem c h)
    simp [fromFirstLB, hc, ih hcs]

theorem upToLastRB_concat (mid : List Char) :
    upToLastRB (mid ++ [']']) = some (mid ++ [']']) := by
  induction mid with
  | nil => rfl
  | cons c cs ih => simp [upToLastRB, ih]

/-- The regex model extracts exactly the bracketed suffix when everything
before it is bracket-free prose. -/
theorem jsonArrayMatch_of_split (s : String) (prose mid : List Char)
    (hs : s.data = prose ++ ('[' :: (mid ++ [']']))) (hp : '[' ∉ prose) :
    jsonArrayMatch s = some ⟨'[' :: (mid ++ [']'])⟩ := by
  unfold jsonArrayMatch
  rw [hs, fromFirstLB_append _ _ hp]
  simp [upToLastRB_concat]

/-! ## Claims about the aggregation cache (modelled from the spec) -/

/-- Claim C1: for every briefing category, when the cache entry for that
category is non-empty and younger than the one hour TTL (that is,
`isValid` holds), the handler returns the cached payload unchanged, the
response carries `cached: true`, no upstream call is made, and the store
is untouched. -/
theorem cache_hit_returns_cached {α : Type} (now : Int) (store : Category → CacheEntry α)
    (cat : Category) (fetch : Unit → α) (d : α)
    (hdata : (store cat).data = some d)
    (hyoung : now - (store cat).timestamp < cacheTTL) :
    isValid now (store cat) = true ∧
    cachedDispatch now store cat fetch = ⟨d, true, 0, store⟩ := by
  constructor
  · simp [isValid, hdata, hyoung]
  · simp [cachedDispatch, hdata, hyoung]

theorem cache_hit_returns_cached_witness :
    isValid 100 (⟨some (Json.str "w"), 50⟩ : CacheEntry Json) = true ∧
    cachedDispatch 100 (fun _ => ⟨some (Json.str "w"), 50⟩) Category.weather
      (fun _ => Json.str "fresh") =
      ⟨Json.str "w", true, 0, fun _ => ⟨some (Json.str "w"), 50⟩⟩ :=
  cache_hit_returns_cached 100 (fun _ => ⟨some (Json.str "w"), 50⟩) Category.weather
    (fun _ => Json.str "fresh") (Json.str "w") rfl (by decide)

/-- Claim C2: for every briefing category, when the cache entry is absent,
empty or older than the one hour TTL (`isValid` fails), the handler
performs exactly one upstream fetch sequence, returns the fresh payload
with `cached: false`, and stores that payload as the new entry for the
category, leaving other categories unchanged. -/
theorem cache_miss_fetches_and_stores {α : Type} (now : Int)
    (store : Category → CacheEntry α) (cat : Category) (fetch : Unit → α)
    (hinvalid : isValid now (store cat) = false) :
    cachedDispatch now store cat fetch =
      ⟨fetch (), false, 1, fun c => if c = cat then ⟨some (fetch ()), now⟩ else store c⟩ := by
  unfold cachedDispatch
  rcases h : (store cat).data with _ | d
  · simp [h]
  · simp [isValid, h] at hinvalid
    simp [h, hinvalid]

theorem cache_miss_fetches_and_stores_witness :
    isValid 7200000 (⟨some (Json.str "old"), 0⟩ : CacheEntry Json) = false ∧
    cachedDispatch 7200000 (fun _ => ⟨some (Json.str "old"), 0⟩) Category.stocks
      (fun _ => Json.str "new") =
      ⟨Json.str "new", false, 1,
        fun c => if c = Category.stocks then ⟨some (Json.str "new"), 7200000⟩
                 else ⟨some (Json.str "old"), 0⟩⟩ :=
  ⟨by decide,
   cache_miss_fetches_and_stores 7200000 (fun _ => ⟨some (Json.str "old"), 0⟩)
     Category.stocks (fun _ => Json.str "new") (by decide)⟩

/-! ## Claims about the news search adapter -/

/-- Claim C3: for every `getNews` request whose model output contains no
JSON array anywhere (the bracket pattern does not match), neither revision
of the handler lets an exception escape: the first revision answers 200
with a deterministic five element placeholder story list whose entries
carry source `System` and title `News Unavailable`, the second revision
answers with an error response (500, `Briefing operation failed`, details
`Failed to parse news data`). -/
theorem news_no_array_policy (apiKey : Option String) (u : NewsUpstream)
    (hkey : jsFalsy apiKey = false) (hok : u.ok = true)
    (hmatch : jsonArrayMatch (newsTextOf u) = none) :
    getNewsV1 apiKey u = (⟨200, .stories (.arr (List.replicate 5 placeholderStory))⟩, 1) ∧
    (List.replicate 5 placeholderStory).length = 5 ∧
    getNewsV2 apiKey u =
      (⟨500, .error "Briefing operation failed" (some "Failed to parse news data")⟩, 1) := by
  refine ⟨?_, by simp, ?_⟩ <;> simp [getNewsV1, getNewsV2, hkey, hok, hmatch]

theorem news_no_array_policy_witness :
    getNewsV1 (some "sk") ⟨true, none, some [⟨"text", "no array in this output"⟩]⟩ =
      (⟨200, .stories (.arr (List.replicate 5 placeholderStory))⟩, 1) ∧
    getNewsV2 (some "sk") ⟨true, none, some [⟨"text", "no array in this output"⟩]⟩ =
      (⟨500, .error "Briefing operation failed" (some "Failed to parse news data")⟩, 1) :=
  ⟨(news_no_array_policy (some "sk") ⟨true, none, some [⟨"text", "no array in this output"⟩]⟩
      rfl rfl rfl).1,
   (news_no_array_policy (some "sk") ⟨true, none, some [⟨"text", "no array in this output"⟩]⟩
      rfl rfl rfl).2.2⟩

/-- Claim C9: for every `getNews` request with a missing or empty
`apiKey`, both revisions of the handler answer 400 (a client error, not a
500) without contacting the LLM provider. -/
theorem news_missing_key_is_400 (apiKey : Option String) (u : NewsUpstream)
    (h : apiKey = none ∨ apiKey = some "") :
    getNewsV1 apiKey u = (⟨400, .error "Anthropic API key required" none⟩, 0) ∧
    getNewsV2 apiKey u = (⟨400, .error "Anthropic API key required" none⟩, 0) := by
  rcases h with h | h <;> subst h <;> exact ⟨rfl, rfl⟩

theorem news_missing_key_is_400_witness :
    getNewsV1 none ⟨true, none, none⟩ = (⟨400, .error "Anthropic API key required" none⟩, 0) ∧
    getNewsV2 none ⟨true, none, none⟩ = (⟨400, .error "Anthropic API key required" none⟩, 0) :=
  news_missing_key_is_400 none ⟨true, none, none⟩ (Or.inl rfl)

/-- Claim C4, counterexample: the model output
`See [9]. [1,2,3,4,5]` is leading prose followed by the valid five element
JSON array `[1,2,3,4,5]`, but because the prose itself contains a left
bracket, the greedy pattern spans `[9]. [1,2,3,4,5]`, `JSON.parse` of that
span throws, and both revisions answer 500 instead of a successful
response carrying the array elements. -/
theorem news_extract_counterexample :
    newsTextOf ⟨true, none, some [⟨"text", "See [9]. [1,2,3,4,5]"⟩]⟩ =
      "See [9]. [1,2,3,4,5]" ∧
    Json.parse "[1,2,3,4,5]" =
      some (.arr [.num "1", .num "2", .num "3", .num "4", .num "5"]) ∧
    jsonArrayMatch "See [9]. [1,2,3,4,5]" = some "[9]. [1,2,3,4,5]" ∧
    Json.parse "[9]. [1,2,3,4,5]" = none ∧
    getNewsV1 (some "sk") ⟨true, none, some [⟨"text", "See [9]. [1,2,3,4,5]"⟩]⟩ =
      (⟨500, .error "Briefing operation failed" (some jsonParseErrMsg)⟩, 1) ∧
    getNewsV2 (some "sk") ⟨true, none, some [⟨"text", "See [9]. [1,2,3,4,5]"⟩]⟩ =
      (⟨500, .error "Briefing operation failed" (some jsonParseErrMsg)⟩, 1) :=
  ⟨rfl, rfl, rfl, rfl, rfl, rfl⟩

/-- Claim C4 (amended: the leading prose must contain no left bracket):
for every model output consisting of bracket-free leading prose followed
by a valid five element JSON array, both revisions extract exactly that
array, parse it, and return its elements as the stories of a successful
response. -/
theorem news_extracts_array (apiKey : Option String) (u : NewsUpstream)
    (prose mid : List Char) (elems : List Json)
    (hkey : jsFalsy apiKey = false) (hok : u.ok = true)
    (htext : (newsTextOf u).data = prose ++ ('[' :: (mid ++ [']'])))
    (hprose : '[' ∉ prose)
    (hparse : Json.parse ⟨'[' :: (mid ++ [']'])⟩ = some (.arr elems))
    (_hlen : elems.length = 5) :
    jsonArrayMatch (newsTextOf u) = some ⟨'[' :: (mid ++ [']'])⟩ ∧
    getNewsV1 apiKey u = (⟨200, .stories (.arr elems)⟩, 1) ∧
    getNewsV2 apiKey u = (⟨200, .stories (.arr elems)⟩, 1) := by
  have hmatch := jsonArrayMatch_of_split (newsTextOf u) prose mid htext hprose
  refine ⟨hmatch, ?_, ?_⟩ <;> simp [getNewsV1, getNewsV2, hkey, hok, hmatch, hparse]

theorem news_extracts_array_witness :
    jsonArrayMatch (newsTextOf ⟨true, none, some [⟨"text", "Here you go: [1,2,3,4,5]"⟩]⟩) =
      some "[1,2,3,4,5]" ∧
    getNewsV1 (some "sk") ⟨true, none, some [⟨"text", "Here you go: [1,2,3,4,5]"⟩]⟩ =
      (⟨200, .stories (.arr [.num "1", .num "2", .num "3", .num "4", .num "5"])⟩, 1) ∧
    getNewsV2 (some "sk") ⟨true, none, some [⟨"text", "Here you go: [1,2,3,4,5]"⟩]⟩ =
      (⟨200, .stories (.arr [.num "1", .num "2", .num "3", .num "4", .num "5"])⟩, 1) :=
  news_extracts_array (some "sk") ⟨true, none, some [⟨"text", "Here you go: [1,2,3,4,5]"⟩]⟩
    "Here you go: ".data "1,2,3,4,5".data
    [.num "1", .num "2", .num "3", .num "4", .num "5"]
    rfl rfl rfl (by decide) rfl rfl

/-! ## Claims about the stock quote adapter -/

theorem removeFirstPct_trailing (l : List Char) (h : '%' ∉ l) :
    removeFirstPct (l ++ ['%']) = l := by
  induction l with
  | nil => rfl
  | cons c cs ih =>
    have hc : c ≠ '%' := fun hh => h (hh ▸ List.mem_cons_self c cs)
    have hcs : '%' ∉ cs := fun hh => h (List.mem_cons_of_mem c hh)
    simp [removeFirstPct, hc, ih hcs]

/-- Claim C7: on a successful `getStocks` response each index price and
change is the raw provider value parsed as a number and printed with
exactly two decimals (the printed hundredths are the closest to the exact
value), `changePercent` is the raw percent string with its trailing
percent sign removed, and in particular `123.456` prints as `123.46` and
`1.2` as `1.20`. -/
theorem stocks_formatting :
    (∀ (u : StocksUpstream) (spq nq : QuoteRaw), u.sp = some spq → u.nasdaq = some nq →
      getStocks u = ⟨200, .quotes
        ⟨fix2 spq.price, fix2 spq.change, stripPct spq.changePercent⟩
        ⟨fix2 nq.price, fix2 nq.change, stripPct nq.changePercent⟩⟩) ∧
    fix2 "123.456" = "123.46" ∧
    fix2 "1.2" = "1.20" ∧
    (∀ p : String, '%' ∉ p.data → stripPct (p ++ "%") = p) ∧
    (∀ s neg intVal fracVal fracLen,
      parseFloatDec s = some (neg, intVal, fracVal, fracLen) →
      ∃ pre post, fix2 s = pre ++ "." ++ post ∧ post.length = 2) ∧
    (∀ units fracLen : ℕ,
      |((toFixed2n units fracLen : ℚ) / 100 - (units : ℚ) / (10 : ℚ) ^ fracLen)| ≤ 1 / 200) := by
  refine ⟨?_, rfl, rfl, ?_, ?_, ?_⟩
  · rintro ⟨sp, nd⟩ spq nq h1 h2
    cases h1
    cases h2
    rfl
  · intro p hp
    have hd : (p ++ "%").data = p.data ++ ['%'] := by simp [String.data_append]
    simp [stripPct, hd, removeFirstPct_trailing _ hp]
  · intro s neg intVal fracVal fracLen hparse
    refine ⟨(if neg ∧ intVal * 10 ^ fracLen + fracVal ≠ 0 then "-" else "") ++
        toString (toFixed2n (intVal * 10 ^ fracLen + fracVal) fracLen / 100),
      pad2 (toFixed2n (intVal * 10 ^ fracLen + fracVal) fracLen % 100), ?_, rfl⟩
    simp [fix2, hparse, toFixed2n]
  · intro units fracLen
    have hbq : (0 : ℚ) < ((2 * 10 ^ fracLen : ℕ) : ℚ) := by positivity
    have h1 : (toFixed2n units fracLen : ℕ) =
        ⌊((200 * units + 10 ^ fracLen : ℕ) : ℚ) / ((2 * 10 ^ fracLen : ℕ) : ℚ)⌋₊ := by
      rw [Nat.floor_div_nat, Nat.floor_natCast]
      rfl
    have hx : ((200 * units + 10 ^ fracLen : ℕ) : ℚ) / ((2 * 10 ^ fracLen : ℕ) : ℚ) =
        100 * ((units : ℚ) / (10 : ℚ) ^ fracLen) + 1 / 2 := by
      rw [div_eq_iff hbq.ne']
      have hp : ((10 : ℚ)) ^ fracLen ≠ 0 := by positivity
      push_cast
      field_simp
      ring
    have hle : ((⌊((200 * units + 10 ^ fracLen : ℕ) : ℚ) /
        ((2 * 10 ^ fracLen : ℕ) : ℚ)⌋₊ : ℚ)) ≤
        ((200 * units + 10 ^ fracLen : ℕ) : ℚ) / ((2 * 10 ^ fracLen : ℕ) : ℚ) :=
      Nat.floor_le (by positivity)
    have hlt : ((200 * units + 10 ^ fracLen : ℕ) : ℚ) / ((2 * 10 ^ fracLen : ℕ) : ℚ) <
        ⌊((200 * units + 10 ^ fracLen : ℕ) : ℚ) / ((2 * 10 ^ fracLen : ℕ) : ℚ)⌋₊ + 1 :=
      Nat.lt_floor_add_one _
    rw [h1, hx] at *
    rw [abs_le]
    constructor <;> linarith

theorem stocks_formatting_witness :
    getStocks ⟨some ⟨"123.456", "1.2", "0.53%"⟩, some ⟨"500.1", "-2.5", "-0.49%"⟩⟩ =
      ⟨200, .quotes ⟨"123.46", "1.20", "0.53"⟩ ⟨"500.10", "-2.50", "-0.49"⟩⟩ ∧
    stripPct ("0.53" ++ "%") = "0.53" :=
  ⟨stocks_formatting.1 ⟨some ⟨"123.456", "1.2", "0.53%"⟩, some ⟨"500.1", "-2.5", "-0.49%"⟩⟩
      ⟨"123.456", "1.2", "0.53%"⟩ ⟨"500.1", "-2.5", "-0.49%"⟩ rfl rfl,
   stocks_formatting.2.2.2.1 "0.53" (by decide)⟩

/-! ## Claim about the weather adapter -/

/-- Claim C8: on a successful `getWeather` response, `temp`, `feels_like`
and `wind_speed` are the provider values rounded by `Math.round` — an
integer within half a unit of the provider value — while `humidity`,
`description` and the `icon` token are passed through verbatim. -/
theorem weather_rounding :
    (∀ u : WeatherUpstream, u.ok = true →
      getWeather u = ⟨200, .weather
        ⟨jsRound u.temp, jsRound u.feels_like, u.description, u.icon, u.humidity,
         jsRound u.wind_speed⟩⟩) ∧
    (∀ q : ℚ, |(jsRound q : ℚ) - q| ≤ 1 / 2) := by
  constructor
  · intro u h
    simp [getWeather, h]
  · exact jsRound_nearest

theorem weather_rounding_witness :
    getWeather ⟨true, 70, 68, 40, "clear sky", "01d", 5⟩ =
      ⟨200, .weather ⟨70, 68, "clear sky", "01d", 40, 5⟩⟩ ∧
    |(jsRound (70 : ℚ) : ℚ) - (70 : ℚ)| ≤ 1 / 2 :=
  ⟨weather_rounding.1 ⟨true, 70, 68, 40, "clear sky", "01d", 5⟩ rfl,
   weather_rounding.2 70⟩

/-! ## Claims about the calendar endpoint -/

/-- A provider stub whose operations all fail; the claims using it never
reach the provider. -/
def calProviderNone : CalProvider :=
  { listEvents := fun _ => .error "unreached"
    getEvent := fun _ => .error "unreached"
    freebusy := fun _ => .error "unreached" }

/-- A provider stub whose operations all succeed with empty data. -/
def calProviderOk : CalProvider :=
  { listEvents := fun _ => .ok (some (.arr []))
    getEvent := fun _ => .ok .null
    freebusy := fun _ => .ok (.obj []) }

/-- The `events.list` query built from an empty `params` object. -/
def listDefaultQuery (toISO : Int → String) (now : Int) : ListQuery :=
  ⟨"primary", toISO now, none, 50, true, "startTime"⟩

/-- The `freebusy.query` window built from an empty `params` object: now
through now plus seven days. -/
def fbDefaultQuery (toISO : Int → String) (now : Int) : FreeBusyQuery :=
  ⟨toISO now, toISO (now + 7 * 24 * 60 * 60 * 1000), ["primary"]⟩

/-- Claim C5, counterexample: a `getEvent` request whose body has no
`params` object at all also has no `eventId`, yet the handler answers 500
`Calendar operation failed` (the destructuring of the absent `params`
throws), not 400 `eventId required`, and makes no provider call. -/
theorem calendar_getEvent_no_params_counterexample :
    calendarHandler (some "\x7b\x7d") 0 (fun _ => "1970-01-01T00:00:00.000Z") calProviderNone
      ⟨"getEvent", none⟩ =
      (⟨500, .error "Calendar operation failed" (some destructureErrMsg)⟩, []) := rfl

/-- Claim C5 (amended: the request body must carry a `params` object):
for every `getEvent` request whose `params` object lacks `eventId`, the
handler answers 400 `eventId required` and does not call the calendar
provider. -/
theorem calendar_getEvent_requires_eventId (envStr : String) (c : Json) (now : Int)
    (toISO : Int → String) (prov : CalProvider) (ps : CalParams)
    (henv : Json.parse envStr = some c) (hid : ps.eventId = none) :
    calendarHandler (some envStr) now toISO prov ⟨"getEvent", some ps⟩ =
      (⟨400, .error "eventId required" none⟩, []) := by
  unfold calendarHandler
  simp [henv, jsFalsy, hid]

theorem calendar_getEvent_requires_eventId_witness :
    calendarHandler (some "\x7b\x7d") 0 (fun _ => "1970-01-01T00:00:00.000Z") calProviderNone
      ⟨"getEvent", some ⟨none, none, none, none⟩⟩ =
      (⟨400, .error "eventId required" none⟩, []) :=
  calendar_getEvent_requires_eventId "\x7b\x7d" (.obj []) 0
    (fun _ => "1970-01-01T00:00:00.000Z") calProviderNone ⟨none, none, none, none⟩ rfl rfl

/-- Claim C6: a `getEvent` request with no `params` object answers 500
`Calendar operation failed` without reaching the provider (the
destructuring throws into the catch block), so the 400 `eventId required`
path is only reachable with `params` present; `listEvents` and
`findFreeTime`, which default an absent `params` to an empty object,
proceed to the provider instead. -/
theorem calendar_missing_params_behavior (envStr : String) (c : Json) (now : Int)
    (toISO : Int → String) (prov : CalProvider)
    (henv : Json.parse envStr = some c) :
    (calendarHandler (some envStr) now toISO prov ⟨"getEvent", none⟩ =
      (⟨500, .error "Calendar operation failed" (some destructureErrMsg)⟩, [])) ∧
    (∀ ps : CalParams, ps.eventId = none →
      calendarHandler (some envStr) now toISO prov ⟨"getEvent", some ps⟩ =
        (⟨400, .error "eventId required" none⟩, [])) ∧
    (∀ items, prov.listEvents (listDefaultQuery toISO now) = .ok items →
      calendarHandler (some envStr) now toISO prov ⟨"listEvents", none⟩ =
        (⟨200, .events (items.getD (.arr []))⟩, [.list (listDefaultQuery toISO now)])) ∧
    (∀ fb, prov.freebusy (fbDefaultQuery toISO now) = .ok fb →
      calendarHandler (some envStr) now toISO prov ⟨"findFreeTime", none⟩ =
        (⟨200, .freebusy fb⟩, [.freebusy (fbDefaultQuery toISO now)])) := by
  refine ⟨?_, ?_, ?_, ?_⟩
  · unfold calendarHandler
    simp [henv]
  · intro ps hid
    unfold calendarHandler
    simp [henv, jsFalsy, hid]
  · intro items hitems
    unfold calendarHandler
    rw [listDefaultQuery] at hitems
    simp [henv, listDefaultQuery, jsOrDefault, hitems]
  · intro fb hfb
    unfold calendarHandler
    rw [fbDefaultQuery] at hfb
    norm_num at hfb
    simp [henv, fbDefaultQuery, jsOrDefault, hfb]

theorem calendar_missing_params_behavior_witness :
    (calendarHandler (some "\x7b\x7d") 0 (fun _ => "T") calProviderOk ⟨"getEvent", none⟩ =
      (⟨500, .error "Calendar operation failed" (some destructureErrMsg)⟩, [])) ∧
    (calendarHandler (some "\x7b\x7d") 0 (fun _ => "T") calProviderOk
      ⟨"getEvent", some ⟨none, none, some 10, none⟩⟩ =
      (⟨400, .error "eventId required" none⟩, [])) ∧
    (calendarHandler (some "\x7b\x7d") 0 (fun _ => "T") calProviderOk ⟨"listEvents", none⟩ =
      (⟨200, .events (.arr [])⟩, [.list (listDefaultQuery (fun _ => "T") 0)])) ∧
    (calendarHandler (some "\x7b\x7d") 0 (fun _ => "T") calProviderOk ⟨"findFreeTime", none⟩ =
      (⟨200, .freebusy (.obj [])⟩, [.freebusy (fbDefaultQuery (fun _ => "T") 0)])) :=
  ⟨(calendar_missing_params_behavior "\x7b\x7d" (.obj []) 0 (fun _ => "T") calProviderOk rfl).1,
   (calendar_missing_params_behavior "\x7b\x7d" (.obj []) 0 (fun _ => "T") calProviderOk rfl).2.1
     ⟨none, none, some 10, none⟩ rfl,
   (calendar_missing_params_behavior "\x7b\x7d" (.obj []) 0 (fun _ => "T") calProviderOk rfl).2.2.1
     (some (.arr [])) rfl,
   (calendar_missing_params_behavior "\x7b\x7d" (.obj []) 0 (fun _ => "T") calProviderOk rfl).2.2.2
     (.obj []) rfl⟩

/-- Claim C10: for every `findFreeTime` request, an unspecified `timeMin`
defaults to the current time and an unspecified `timeMax` to the current
time plus seven days (7·24·60·60·1000 milliseconds), and on provider
success the handler returns the free/busy data of the primary calendar
over exactly that window. -/
theorem calendar_findFreeTime_defaults (envStr : String) (c : Json) (now : Int)
    (toISO : Int → String) (prov : CalProvider) (fb : Json)
    (pOpt : Option CalParams) (mr : Option Nat) (ev : Option String)
    (henv : Json.parse envStr = some c)
    (hp : pOpt = none ∨ pOpt = some ⟨none, none, mr, ev⟩)
    (hfb : prov.freebusy
      ⟨toISO now, toISO (now + 7 * 24 * 60 * 60 * 1000), ["primary"]⟩ = .ok fb) :
    calendarHandler (some envStr) now toISO prov ⟨"findFreeTime", pOpt⟩ =
      (⟨200, .freebusy fb⟩,
       [.freebusy ⟨toISO now, toISO (now + 7 * 24 * 60 * 60 * 1000), ["primary"]⟩]) := by
  norm_num at hfb
  rcases hp with hp | hp <;> subst hp <;>
    · unfold calendarHandler
      simp [henv, jsOrDefault, hfb]

theorem calendar_findFreeTime_defaults_witness :
    calendarHandler (some "\x7b\x7d") 0 (fun t => toString t) calProviderOk
      ⟨"findFreeTime", none⟩ =
      (⟨200, .freebusy (.obj [])⟩,
       [.freebusy ⟨toString (0 : Int), toString (604800000 : Int), ["primary"]⟩]) :=
  calendar_findFreeTime_defaults "\x7b\x7d" (.obj []) 0 (fun t => toString t) calProviderOk
    (.obj []) none none none rfl (Or.inl rfl) rfl
